import Mathlib

/-!
Verification of the command-execution core of mailpile/commands.py:
the `Command` lifecycle (`_run_sync` / `_run`), the result cache hook,
command resolution (`GetCommand` / `Action`), result rendering
(`CommandResult.as_`), event-data scrubbing (`_sloppy_copy`) and the
`SearchResults` statistics. Python code is embedded shallowly: mutable
attributes become explicit state records, exceptions become sum types,
and the trace of writes to `event.flags` is recorded as a list.
-/

namespace Mailpile

/-- The `mailpile.eventlog.Event` flag values relevant to the command
lifecycle: `Event.INCOMPLETE`, `Event.RUNNING`, `Event.COMPLETE`. -/
inductive EventFlag where
  | incomplete
  | running
  | complete
deriving DecidableEq, Repr

/-- A Python exception as seen by `_run_sync`'s handlers: `declared`
states whether its class belongs to the command's `RAISES` tuple
(`(UsageError, UrlRedirectException)` by default); `eid` distinguishes
exception objects. -/
structure Exn where
  declared : Bool
  eid : Nat
deriving DecidableEq, Repr

/-- The payload (`rv`) wrapped into a CommandResult: command bodies in
the modelled paths return a truthy/falsy value, and the asynchronous
placeholder result carries `{"resultid": event_id}`. -/
inductive Payload where
  | value (rv : Bool)
  | resultRef (eventId : Nat)
deriving DecidableEq, Repr

/-- The fields of `Command.CommandResult` the lifecycle claims inspect.
`uiOwner` identifies which session `ui` object `result.session.ui`
points at (cache hits re-stamp it with the caller's ui). -/
structure CommandResult where
  status : String
  errorInfo : List (String × String)
  payload : Payload
  uiOwner : Nat
deriving DecidableEq, Repr

/-- What `command(self, *args, **kwargs)` does when invoked: return a
value, or raise an exception (declared control-flow or any other). -/
inductive BodyOutcome where
  | ok (rv : Bool)
  | raises (e : Exn)
deriving DecidableEq, Repr

/-- The body's observable behaviour: its outcome together with the
`self.status` / `self.error_info` values it leaves behind (command
bodies mutate these through `_success` / `_error` before returning or
raising). -/
structure BodyBehavior where
  outcome : BodyOutcome
  status : String
  errorInfo : List (String × String)
deriving DecidableEq, Repr

/-- The inputs a single `_run` / `_run_sync` invocation depends on:
the class constant `COMMAND_CACHE_TTL`, whether `'http'` is in
`session.config.sys.debug`, the caller's `session.ui` identity, the
contents of `session.config.command_cache` (`get_result` returns the
entry for a cache id iff a fresh one exists, else raises), the
command's `cache_id()` string, the body behaviour and `self.run_async`. -/
structure RunConfig where
  ttl : Int
  httpDebug : Bool
  callerUi : Nat
  cache : List (String × CommandResult)
  cacheId : String
  body : BodyBehavior
  runAsync : Bool
deriving DecidableEq, Repr

/-- Mutable per-invocation state accumulated during a run: the sequence
of writes to `self.event.flags` (starting with the `Event.INCOMPLETE`
write at construction in `_create_event`), how many `CommandResult`
objects were constructed, how many times the command body was entered,
how many times `command_cache.get_result` was consulted, and the
current `self.status` / `self.error_info`. -/
structure RunTrace where
  flagWrites : List EventFlag
  resultsMade : Nat
  bodyRuns : Nat
  cacheLookups : Nat
  status : String
  errorInfo : List (String × String)
deriving DecidableEq, Repr

/-- State right after `Command.__init__`: `self.status = 'unknown'`,
`self.error_info = {}`, and the Event was created `INCOMPLETE`. -/
def initTrace : RunTrace :=
  { flagWrites := [EventFlag.incomplete]
    resultsMade := 0
    bodyRuns := 0
    cacheLookups := 0
    status := "unknown"
    errorInfo := [] }

/-- Result of a run: a returned CommandResult, or an exception that
propagated to the caller. -/
inductive RunOutcome where
  | returned (r : CommandResult)
  | raised (e : Exn)
deriving DecidableEq, Repr

/-- Model of `command_cache.get_result(cid)`: the fresh entry for `cid` if one
exists (a miss or stale entry raises, which `_run_sync` swallows). -/
def lookupCache (cache : List (String × CommandResult)) (cid : String) :
    Option CommandResult :=
  (cache.find? (fun kv => kv.1 = cid)).map (fun kv => kv.2)

/-- The guarded cache probe at the top of `_run_sync`: performed only
when `COMMAND_CACHE_TTL > 0`, `'http' not in session.config.sys.debug`
and `enable_cache` is set. -/
def cacheHit (cfg : RunConfig) (enableCache : Bool) : Option CommandResult :=
  if cfg.ttl > 0 && !cfg.httpDebug && enableCache then
    lookupCache cfg.cache cfg.cacheId
  else
    none

/-- Model of `self._starting()`: records the start time and writes
`Event.RUNNING` to the event flags. -/
def starting (tr : RunTrace) : RunTrace :=
  { tr with flagWrites := tr.flagWrites ++ [EventFlag.running] }

/-- Model of `self._update_finished_event()`: writes `Event.COMPLETE`. -/
def updateFinishedEvent (tr : RunTrace) : RunTrace :=
  { tr with flagWrites := tr.flagWrites ++ [EventFlag.complete] }

/-- Model of `self._finishing(command, rv)` without `just_cleanup`: constructs
exactly one `CommandResult` from the current status / error_info, calls
`cache_result` (an external store write), and — only when the command
is not running asynchronously — updates the event to `COMPLETE`. -/
def finishing (cfg : RunConfig) (tr : RunTrace) (rv : Bool) :
    CommandResult × RunTrace :=
  let result : CommandResult :=
    { status := tr.status
      errorInfo := tr.errorInfo
      payload := Payload.value rv
      uiOwner := cfg.callerUi }
  let tr := { tr with resultsMade := tr.resultsMade + 1 }
  let tr := if cfg.runAsync then tr else updateFinishedEvent tr
  (result, tr)

/-- Model of `Command._run_sync(enable_cache, ...)`: start the event, probe the
cache, and on a miss run the (wrapped) body, mapping exceptions in
`self.RAISES` to a success-status re-raise and any other exception to
an error result via `self._error`. -/
def run_sync (cfg : RunConfig) (enableCache : Bool) (tr : RunTrace) :
    RunOutcome × RunTrace :=
  let tr := starting tr
  let tr :=
    if cfg.ttl > 0 && !cfg.httpDebug && enableCache then
      { tr with cacheLookups := tr.cacheLookups + 1 }
    else
      tr
  match cacheHit cfg enableCache with
  | some rv =>
      -- rv.session.ui = self.session.ui; _finishing(self, True, just_cleanup=True)
      let tr := updateFinishedEvent tr
      (RunOutcome.returned { rv with uiOwner := cfg.callerUi }, tr)
  | none =>
      let tr := { tr with
                    bodyRuns := tr.bodyRuns + 1
                    status := cfg.body.status
                    errorInfo := cfg.body.errorInfo }
      match cfg.body.outcome with
      | BodyOutcome.ok rv =>
          let (result, tr) := finishing cfg tr rv
          (RunOutcome.returned result, tr)
      | BodyOutcome.raises e =>
          if e.declared then
            -- except self.RAISES: status = 'success'; just_cleanup; raise
            let tr := { tr with status := "success" }
            let tr := updateFinishedEvent tr
            (RunOutcome.raised e, tr)
          else
            -- except: _ignore_exception(); _error(FAILURE % ...); _finishing(command, False)
            let tr := { tr with status := "error" }
            let (result, tr) := finishing cfg tr false
            (RunOutcome.returned result, tr)

/-- Model of `Command._run(...)` (which `Command.run` delegates to): the
synchronous path calls `_run_sync(True, ...)`; the asynchronous path
starts the event, logs a second `RUNNING` write, returns a placeholder
`CommandResult` and hands `streetcar` — which runs `_run_sync(True, ...)`
and then `_update_finished_event()`, swallowing any exception — to
`async_worker`. The model runs the queued closure to completion
(a single-threaded schedule of the worker queue). -/
def run (cfg : RunConfig) : RunOutcome × RunTrace :=
  if cfg.runAsync then
    let tr := starting initTrace
    -- _update_event_state(self.event.RUNNING, log=True)
    let tr := { tr with flagWrites := tr.flagWrites ++ [EventFlag.running] }
    let placeholder : CommandResult :=
      { status := "success"
        errorInfo := []
        payload := Payload.resultRef 0
        uiOwner := cfg.callerUi }
    let tr := { tr with resultsMade := tr.resultsMade + 1 }
    -- async_worker.add_task(..., streetcar)
    let (rv, tr) := run_sync cfg true tr
    match rv with
    | RunOutcome.returned _ =>
        -- streetcar: event.private_data.update(rv.as_dict()); _update_finished_event()
        let tr := updateFinishedEvent tr
        (RunOutcome.returned placeholder, tr)
    | RunOutcome.raised _ =>
        -- streetcar's bare except: traceback.print_exc()
        (RunOutcome.returned placeholder, tr)
  else
    run_sync cfg true initTrace

/-- Collapse consecutive repeated flag writes into the sequence of
distinct states the event passes through. -/
def collapseRuns : List EventFlag → List EventFlag
  | [] => []
  | [a] => [a]
  | a :: b :: rest =>
      if a = b then collapseRuns (b :: rest) else a :: collapseRuns (b :: rest)

/-- The number of CommandResult constructions `_run_sync` performs:
none on a cache hit, none on a declared control-flow raise, one
otherwise. -/
def syncResultsMade (cfg : RunConfig) : Nat :=
  match cacheHit cfg true with
  | some _ => 0
  | none =>
      match cfg.body.outcome with
      | BodyOutcome.ok _ => 1
      | BodyOutcome.raises e => if e.declared then 0 else 1

/-- CommandResult constructions across a whole `_run`: the asynchronous
path additionally constructs the placeholder result. -/
def expectedResults (cfg : RunConfig) : Nat :=
  (if cfg.runAsync then 1 else 0) + syncResultsMade cfg

/-- A synchronous invocation of a non-cacheable command whose body
raises a declared control-flow exception (e.g. `UrlRedirectException`). -/
def redirectCfg : RunConfig :=
  { ttl := 0
    httpDebug := false
    callerUi := 7
    cache := []
    cacheId := ""
    body := { outcome := BodyOutcome.raises { declared := true, eid := 3 }
              status := "unknown"
              errorInfo := [] }
    runAsync := false }

/-- A synchronous invocation of a non-cacheable command whose body
raises an exception outside `RAISES` without having touched
`self.error_info`. -/
def crashCfg : RunConfig :=
  { ttl := 0
    httpDebug := false
    callerUi := 7
    cache := []
    cacheId := ""
    body := { outcome := BodyOutcome.raises { declared := false, eid := 5 }
              status := "unknown"
              errorInfo := [] }
    runAsync := false }

/-- A previously cached CommandResult, stamped with another session's ui. -/
def cachedResultExample : CommandResult :=
  { status := "success"
    errorInfo := []
    payload := Payload.value true
    uiOwner := 1 }

/-- A Python value as `Command._sloppy_copy` sees it: a scalar
(anything that is not a list/tuple/dict; `decodable` records whether
`unicode(v).encode('utf-8')` succeeds and `chars` the characters of
`unicode(v)`), a list/tuple, or a dict keyed by strings. Strings are
embedded as `List Char`. -/
inductive PyVal where
  | scalar (decodable : Bool) (chars : List Char)
  | list (items : List PyVal)
  | dict (items : List (List Char × PyVal))

instance : Inhabited PyVal := ⟨PyVal.scalar true []⟩

/-- The entries of a dict value (empty for non-dicts). -/
def dictEntries : PyVal → List (List Char × PyVal)
  | PyVal.dict items => items
  | _ => []

/-- The test `name and 'pass' == name[:4]` for an optional field name. -/
def startsWithPass : Option (List Char) → Bool
  | some name => name.take 4 = ['p', 'a', 's', 's']
  | none => false

/-- The characters of the literal `'(SUPPRESSED)'`. -/
def suppressedText : List Char := "(SUPPRESSED)".toList

/-- The characters of the literal `'(BINARY DATA)'`. -/
def binaryText : List Char := "(BINARY DATA)".toList

/-- Model of `copy_value(v)` inside `_sloppy_copy`: the first 1024 characters of
`unicode(v)` when it can be utf-8 encoded, else `'(BINARY DATA)'`. -/
def copy_value (decodable : Bool) (chars : List Char) : PyVal :=
  if decodable then PyVal.scalar true (chars.take 1024)
  else PyVal.scalar true binaryText

/-- Model of `Command._sloppy_copy(data, name)`: a field whose name starts with
`'pass'` is replaced by `'(SUPPRESSED)'` before any inspection of its
value; lists recurse with the same name, dict entries recurse with
their key as the name, and scalars go through `copy_value`. -/
def sloppy_copy (data : PyVal) (name : Option (List Char)) : PyVal :=
  if startsWithPass name then copy_value true suppressedText
  else
    match data with
    | PyVal.scalar d s => copy_value d s
    | PyVal.list items =>
        PyVal.list (items.attach.map (fun i => sloppy_copy i.1 name))
    | PyVal.dict items =>
        PyVal.dict (items.attach.map
          (fun kv => (kv.1.1, sloppy_copy kv.1.2 (some kv.1.1))))
termination_by sizeOf data
decreasing_by
  · have h1 := List.sizeOf_lt_of_mem i.2
    simp
    omega
  · have h1 := List.sizeOf_lt_of_mem kv.2
    have h2 : sizeOf kv.1.2 < sizeOf kv.1 := by
      rcases kv with ⟨⟨k, v⟩, hm⟩
      simp
    simp
    omega

/-- Every scalar leaf of a value holds at most 1024 characters. -/
def leavesBounded (v : PyVal) : Bool :=
  match v with
  | PyVal.scalar _ s => decide (s.length ≤ 1024)
  | PyVal.list items => items.attach.all (fun i => leavesBounded i.1)
  | PyVal.dict items => items.attach.all (fun kv => leavesBounded kv.1.2)
termination_by sizeOf v
decreasing_by
  · have h1 := List.sizeOf_lt_of_mem i.2
    simp
    omega
  · have h1 := List.sizeOf_lt_of_mem kv.2
    have h2 : sizeOf kv.1.2 < sizeOf kv.1 := by
      rcases kv with ⟨⟨k, v⟩, hm⟩
      simp
    simp
    omega

/-- Model of the private data `Command._create_event` logs: sloppy copies of
`self.data` and `self.args`, logged only when `LOG_ARGUMENTS` is set
and the fields are non-empty. -/
def create_event_private_data (logArguments : Bool)
    (data : List (List Char × PyVal)) (args : List PyVal) :
    List (List Char × PyVal) :=
  if logArguments then
    (if data.isEmpty then [] else
      [("data".toList, sloppy_copy (PyVal.dict data) none)]) ++
    (if args.isEmpty then [] else
      [("args".toList, sloppy_copy (PyVal.list args) none)])
  else []

/-- Python `dict.update`: entries of `upd` replace same-key entries of
`base` and new keys are added. -/
def dictUpdate (base upd : List (List Char × PyVal)) :
    List (List Char × PyVal) :=
  base.filter (fun kv => !(upd.any (fun kv2 => kv2.1 = kv.1))) ++ upd

/-- Model of `Command.state_as_query_args()`: `{'arg': sloppy(self.args)}` when
positional args are present, updated with the sloppy copy of
`self.data`. -/
def state_as_query_args (args : List PyVal)
    (data : List (List Char × PyVal)) : List (List Char × PyVal) :=
  dictUpdate
    (if args.isEmpty then [] else
      [("arg".toList, sloppy_copy (PyVal.list args) none)])
    (match sloppy_copy (PyVal.dict data) none with
     | PyVal.dict items => items
     | _ => [])

/-- Model of `sorted(list(sqa.iteritems()))`: Python sorts the `(key, value)`
tuples, comparing values only on tied keys — which cannot happen for a
dict's items — so this is a sort by key. -/
def sortByKey (sqa : List (List Char × PyVal)) : List (List Char × PyVal) :=
  sqa.mergeSort (fun a b => decide (a.1 ≤ b.1))

/-- The cleanup `.replace('/', '-').replace('.', '-')`, making the id usable as a
CSS class. -/
def cssSanitize (s : List Char) : List Char :=
  s.map (fun ch => if ch = '/' || ch = '.' then '-' else ch)

/-- Model of `Command.cache_id(sqa)`: the empty string for non-cacheable
commands (`COMMAND_CACHE_TTL < 1`), else
`'%s-%s' % (UrlMap.ui_url(self), md5_hex(str(sorted(args))))` made
CSS-safe. `uiUrl` is the resolved endpoint path `UrlMap.ui_url(self)`
(a function of the command's endpoint identity; mailpile/urlmap.py is
outside this source tree) and `md5hex` stands for the composition
`md5_hex(str(·))` from mailpile.util (also external) — an arbitrary but
fixed deterministic function of the sorted pair list. -/
def cache_id (ttl : Int) (uiUrl : List Char)
    (md5hex : List (List Char × PyVal) → List Char)
    (sqa : List (List Char × PyVal)) : List Char :=
  if ttl < 1 then []
  else cssSanitize (uiUrl ++ '-' :: md5hex (sortByKey sqa))

/-- The outcome of `CommandResult.as_`: a rendered value, or the
`TypeError` from calling `self.renderers.get(what)` (i.e. `None`) with
arguments when the format has no renderer. -/
inductive AsOutcome where
  | value (s : String)
  | typeError
deriving DecidableEq, Repr

/-- The render-relevant state of a CommandResult: its payload
(`self.result`) and the per-format memo `self.rendered`. The renderers
(`as_json`, `as_html`, ..., keyed like `self.renderers`) are pure
functions of `(status, message, result, error_info)` — `as_dict` builds
a fresh dict around `self.result`, and `as_template` mutates only its
local `data` copy — so they are modelled as a fixed map from format to
output. -/
structure CRView where
  result : PyVal
  rendered : List (String × String)

/-- Lookup in the `self.rendered` memo. -/
def lookupRendered (m : List (String × String)) (what : String) :
    Option String :=
  (m.find? (fun kv => kv.1 = what)).map (fun kv => kv.2)

/-- Model of `CommandResult.as_(what, *args, **kwargs)`: with extra args the
memo is bypassed entirely (`return self.renderers.get(what)(*args,
**kwargs)`); without, a missing entry is computed once — by
`self.renderers.get(what, self.as_text)` — stored in `self.rendered`
under `what`, and returned from the memo thereafter. Returns the
outcome, the state after the call, and how many renderer invocations
the call performed. -/
def as_ (renderers : String → Option String) (asText : String)
    (st : CRView) (what : String) (hasArgs : Bool) :
    AsOutcome × CRView × Nat :=
  if hasArgs then
    match renderers what with
    | some out => (AsOutcome.value out, st, 1)
    | none => (AsOutcome.typeError, st, 0)
  else
    match lookupRendered st.rendered what with
    | some v => (AsOutcome.value v, st, 0)
    | none =>
        let out := (renderers what).getD asText
        (AsOutcome.value out,
         { st with rendered := (what, out) :: st.rendered }, 1)

/-- The stats dict built by `SearchResults.__init__`. -/
structure SearchStats where
  count : Nat
  start : Nat
  end_ : Nat
  total : Nat
deriving DecidableEq, Repr

/-- The `start`-clamping, slicing and stats computation of
`SearchResults.__init__`: `num` is the already-defaulted page size
(`num or session.config.prefs.num_results`); a truthy `end` argument
overrides `start` via `start = end - num`; `start` is clamped to
`len(results)` from above and then to 0 from below; `threads` is
`results[start:start + num]` (its `b36` rendering does not change its
length). Returns the stats and the effective start. -/
def searchResultsStats (results : List Nat) (start0 : Int)
    (endOpt : Option Int) (num : Nat) : SearchStats × Nat :=
  let L := results.length
  let s1 : Int :=
    match endOpt with
    | some e => if e = 0 then start0 else e - num
    | none => start0
  let s2 : Int := if s1 > L then (L : Int) else s1
  let start : Nat := (if s2 < 0 then 0 else s2).toNat
  let threads := (results.drop start).take num
  ({ count := threads.length
     start := start + 1
     end_ := start + min num (L - start)
     total := L }, start)

/-- A registered command's identity: its class name and the first three
`SYNOPSIS` slots — CLI shortcode, CLI shortname, API endpoint — where
`none` models a `None` slot. -/
structure CommandDef where
  klass : String
  shortcode : Option String
  shortname : Option String
  apiPath : Option String
deriving DecidableEq, Repr

/-- The test `name in c.SYNOPSIS[:3]` (a string never equals a `None` slot). -/
def synopsisHas (c : CommandDef) (name : String) : Bool :=
  c.shortcode = some name || c.shortname = some name || c.apiPath = some name

/-- Synopsis of `class Load`: `(None, 'load', None, ...)`. -/
def Load : CommandDef := ⟨"Load", none, some "load", none⟩

/-- Synopsis of `class Optimize`: `(None, 'optimize', None, ...)`. -/
def Optimize : CommandDef := ⟨"Optimize", none, some "optimize", none⟩

/-- Synopsis of `class Rescan`: `(None, 'rescan', None, ...)`. -/
def Rescan : CommandDef := ⟨"Rescan", none, some "rescan", none⟩

/-- Synopsis of `class BrowseOrLaunch`: `(None, 'browse_or_launch', None, ...)`. -/
def BrowseOrLaunch : CommandDef := ⟨"BrowseOrLaunch", none, some "browse_or_launch", none⟩

/-- Synopsis of `class RunWWW`: `(None, 'www', None, ...)`. -/
def RunWWW : CommandDef := ⟨"RunWWW", none, some "www", none⟩

/-- Synopsis of `class ProgramStatus`: `(None, 'ps', 'ps', ...)`. -/
def ProgramStatus : CommandDef := ⟨"ProgramStatus", none, some "ps", some "ps"⟩

/-- Synopsis of `class ListDir`: `(None, 'ls', None, ...)`. -/
def ListDir : CommandDef := ⟨"ListDir", none, some "ls", none⟩

/-- Synopsis of `class ChangeDir`: `(None, 'cd', None, ...)`. -/
def ChangeDir : CommandDef := ⟨"ChangeDir", none, some "cd", none⟩

/-- Synopsis of `class CatFile`: `(None, 'cat', None, ...)`. -/
def CatFile : CommandDef := ⟨"CatFile", none, some "cat", none⟩

/-- Synopsis of `class WritePID`: `(None, 'pidfile', None, ...)`. -/
def WritePID : CommandDef := ⟨"WritePID", none, some "pidfile", none⟩

/-- Synopsis of `class ConfigPrint`: `('P', 'print', 'settings', ...)`. -/
def ConfigPrint : CommandDef := ⟨"ConfigPrint", some "P", some "print", some "settings"⟩

/-- Synopsis of `class ConfigSet`: `('S', 'set', 'settings/set', ...)`. -/
def ConfigSet : CommandDef := ⟨"ConfigSet", some "S", some "set", some "settings/set"⟩

/-- Synopsis of `class ConfigAdd`: `(None, 'append', 'settings/add', ...)`. -/
def ConfigAdd : CommandDef := ⟨"ConfigAdd", none, some "append", some "settings/add"⟩

/-- Synopsis of `class ConfigUnset`: `('U', 'unset', 'settings/unset', ...)`. -/
def ConfigUnset : CommandDef := ⟨"ConfigUnset", some "U", some "unset", some "settings/unset"⟩

/-- Synopsis of `class AddMailboxes`: `('A', 'add', None, ...)`. -/
def AddMailboxes : CommandDef := ⟨"AddMailboxes", some "A", some "add", none⟩

/-- Synopsis of `class RenderPage`: `(None, None, 'page', ...)`. -/
def RenderPage : CommandDef := ⟨"RenderPage", none, none, some "page"⟩

/-- Synopsis of `class Cached`: `(None, 'cached', 'cached', ...)`. -/
def Cached : CommandDef := ⟨"Cached", none, some "cached", some "cached"⟩

/-- Synopsis of `class Output`: `(None, 'output', None, ...)`. -/
def Output : CommandDef := ⟨"Output", none, some "output", none⟩

/-- Synopsis of `class Help`: `('h', 'help', 'help', ...)`. -/
def Help : CommandDef := ⟨"Help", some "h", some "help", some "help"⟩

/-- Synopsis of `class HelpVars`: `(None, 'help/variables', 'help/variables', ...)`. -/
def HelpVars : CommandDef := ⟨"HelpVars", none, some "help/variables", some "help/variables"⟩

/-- Synopsis of `class HelpSplash`: `(None, 'help/splash', 'help/splash', ...)`. -/
def HelpSplash : CommandDef := ⟨"HelpSplash", none, some "help/splash", some "help/splash"⟩

/-- Synopsis of `class Quit`: `('q', 'quit', 'quitquitquit', ...)`. -/
def Quit : CommandDef := ⟨"Quit", some "q", some "quit", some "quitquitquit"⟩

/-- Synopsis of `class TrustingQQQ`: `(None, 'trustingqqq', None, ...)`. -/
def TrustingQQQ : CommandDef := ⟨"TrustingQQQ", none, some "trustingqqq", none⟩

/-- Synopsis of `class Abort`: `(None, 'quit/abort', 'abortabortabort', ...)`. -/
def Abort : CommandDef := ⟨"Abort", none, some "quit/abort", some "abortabortabort"⟩

/-- The `COMMANDS` registry as populated at the bottom of commands.py,
in source order (plugins append more definitions at runtime; the
resolution theorems quantify over the token only). -/
def COMMANDS : List CommandDef :=
  [Load, Optimize, Rescan, BrowseOrLaunch, RunWWW, ProgramStatus,
   ListDir, ChangeDir, CatFile,
   WritePID, ConfigPrint, ConfigSet, ConfigAdd, ConfigUnset, AddMailboxes,
   RenderPage, Cached, Output,
   Help, HelpVars, HelpSplash, Quit, TrustingQQQ, Abort]

/-- Model of `GetCommand(name)`: filter the registry for definitions whose
`SYNOPSIS[:3]` contains `name` and return the match only when it is
unique. -/
def GetCommand (name : String) : Option CommandDef :=
  let m := COMMANDS.filter (fun c => synopsisHas c name)
  if m.length = 1 then m.head? else none

/-- The four ways `Action(session, opt, arg, data)` can conclude: run
`Help` for an empty token, run a uniquely resolved command, rewrite the
request into a `search` invocation with an `in:<slug>` query, or raise
`UsageError('Unknown command: ...')`. -/
inductive ActionOutcome where
  | ranHelp
  | ranCommand (c : CommandDef)
  | ranTagSearch (query : String)
  | unknownCommand (opt : String)
deriving DecidableEq, Repr

/-- Model of `Action(session, opt, arg, data)`. `configLoaded` models
`config.loaded_config` and `getTag` models the collaborator lookup
`config.get_tag(opt)` (mailpile/config.py is outside this source tree),
returning the known tag's slug when the token names a tag. -/
def Action (opt arg : String) (configLoaded : Bool)
    (getTag : String → Option String) : ActionOutcome :=
  if opt = "" then ActionOutcome.ranHelp
  else
    match GetCommand opt with
    | some c => ActionOutcome.ranCommand c
    | none =>
        if configLoaded then
          match getTag opt with
          | some slug =>
              -- a = 'in:%s%s%s' % (tag.slug, ' ' if arg else '', arg)
              ActionOutcome.ranTagSearch
                ("in:" ++ slug ++ (if arg ≠ "" then " " else "") ++ arg)
          | none => ActionOutcome.unknownCommand opt
        else ActionOutcome.unknownCommand opt

/-- A synchronous invocation of a cacheable command whose cache id has
a fresh entry in the command cache. -/
def cacheHitCfg : RunConfig :=
  { ttl := 3600
    httpDebug := false
    callerUi := 7
    cache := [("search-abc", cachedResultExample)]
    cacheId := "search-abc"
    body := { outcome := BodyOutcome.ok true
              status := "success"
              errorInfo := [] }
    runAsync := false }

end Mailpile

namespace Mailpile

/-- C1 (amended): on every invocation of `run()`/`_run()` — synchronous
or asynchronous, and whether the body returns, raises a declared
control-flow exception, or raises any other exception — the Event
passes through exactly one `INCOMPLETE → RUNNING → COMPLETE` sequence
(collapsing repeated writes of the same state); exactly one
CommandResult is constructed on the success and error paths, but none
on a cache hit (the cached result is returned) and none when the body
raises a declared control-flow exception (the exception is re-raised
after the Event completes); the asynchronous path additionally
constructs its placeholder result. -/
theorem c1_lifecycle_amended (cfg : RunConfig) :
    collapseRuns (run cfg).2.flagWrites =
      [EventFlag.incomplete, EventFlag.running, EventFlag.complete]
    ∧ (run cfg).2.resultsMade = expectedResults cfg := by
  unfold run run_sync finishing starting updateFinishedEvent expectedResults
    syncResultsMade cacheHit initTrace
  rcases cfg with ⟨ttl, httpDebug, callerUi, cache, cacheId, ⟨outcome, bstatus, berr⟩, runAsync⟩
  cases runAsync <;> cases httpDebug <;>
    rcases houtc : outcome with rv | e <;>
    rcases hl : lookupCache cache cacheId with _ | r <;>
    by_cases httl : ttl > 0 <;>
    simp [httl, hl, collapseRuns] <;>
    (try cases e.declared) <;> simp [collapseRuns]

/-- C1 (counterexample): a synchronous invocation whose body raises a
declared control-flow exception produces zero CommandResult objects —
not exactly one as the claim states — because `_run_sync` only performs
lifecycle cleanup and re-raises. -/
theorem c1_lifecycle_counterexample :
    (run redirectCfg).2.resultsMade = 0 ∧ (run redirectCfg).2.resultsMade ≠ 1 := by
  decide

/-- C2 (amended): when the command body raises an exception outside the
declared `RAISES` set, `_run_sync` catches it (nothing propagates past
the Executor boundary) and returns a CommandResult with status
`'error'` whose `error_info` is whatever the invocation had accumulated
— possibly empty — and the Event still ends COMPLETE. -/
theorem c2_error_conversion (cfg : RunConfig) (e : Exn)
    (hout : cfg.body.outcome = BodyOutcome.raises e)
    (hd : e.declared = false)
    (hmiss : cacheHit cfg true = none)
    (hsync : cfg.runAsync = false) :
    (run_sync cfg true initTrace).1 =
      RunOutcome.returned
        { status := "error"
          errorInfo := cfg.body.errorInfo
          payload := Payload.value false
          uiOwner := cfg.callerUi }
    ∧ collapseRuns (run_sync cfg true initTrace).2.flagWrites =
        [EventFlag.incomplete, EventFlag.running, EventFlag.complete]
    ∧ (run_sync cfg true initTrace).2.resultsMade = 1 := by
  unfold run_sync starting cacheHit initTrace
  unfold cacheHit at hmiss
  by_cases httl : (cfg.ttl > 0 && !cfg.httpDebug && true) = true <;>
    simp [httl] at hmiss ⊢ <;>
    simp [hmiss, hout, hd, hsync, collapseRuns, finishing, updateFinishedEvent]

/-- C2 (witness): the amended behaviour at a concrete crashing body. -/
theorem c2_error_conversion_witness :
    (run_sync crashCfg true initTrace).1 =
      RunOutcome.returned
        { status := "error"
          errorInfo := []
          payload := Payload.value false
          uiOwner := 7 }
    ∧ collapseRuns (run_sync crashCfg true initTrace).2.flagWrites =
        [EventFlag.incomplete, EventFlag.running, EventFlag.complete]
    ∧ (run_sync crashCfg true initTrace).2.resultsMade = 1 :=
  c2_error_conversion crashCfg { declared := false, eid := 5 }
    rfl rfl (by decide) rfl

/-- C2 (counterexample): the body crashes without having populated
`self.error_info`; the returned CommandResult has status `'error'` but
an empty `error_info` map, refuting the claim's "non-empty error_info". -/
theorem c2_error_info_counterexample :
    (run_sync crashCfg true initTrace).1 =
      RunOutcome.returned
        { status := "error"
          errorInfo := []
          payload := Payload.value false
          uiOwner := 7 } := by
  decide

/-- C3: a cacheable command (`COMMAND_CACHE_TTL > 0`) run synchronously
with caching enabled and `'http'` not in the debug settings returns the
fresh cached CommandResult for its cache id, re-stamped with the
caller's `session.ui`, without entering the command body and without
constructing a new result; and any invocation that is non-cacheable
(`COMMAND_CACHE_TTL < 1`) or has the http debug flag set never consults
the command cache. -/
theorem c3_cache_short_circuit (cfg cfg2 : RunConfig) (rv : CommandResult)
    (httl : cfg.ttl > 0)
    (hdbg : cfg.httpDebug = false)
    (hhit : lookupCache cfg.cache cfg.cacheId = some rv)
    (hskip : cfg2.ttl < 1 ∨ cfg2.httpDebug = true) :
    run_sync cfg true initTrace =
      (RunOutcome.returned { rv with uiOwner := cfg.callerUi },
       { flagWrites := [EventFlag.incomplete, EventFlag.running, EventFlag.complete]
         resultsMade := 0
         bodyRuns := 0
         cacheLookups := 1
         status := "unknown"
         errorInfo := [] })
    ∧ (run_sync cfg2 true initTrace).2.cacheLookups = 0 := by
  constructor
  · unfold run_sync starting updateFinishedEvent cacheHit initTrace
    simp [httl, hdbg, hhit]
  · have hcond : (decide (cfg2.ttl > 0) && !cfg2.httpDebug && true) = false := by
      rcases hskip with h | h
      · have h2 : ¬ (cfg2.ttl > 0) := by omega
        simp [h2]
      · simp [h]
    unfold run_sync starting cacheHit initTrace
    rw [hcond]
    rcases cfg2.body.outcome with rv2 | e
    · by_cases hra : cfg2.runAsync = true <;>
        simp [hra, finishing, updateFinishedEvent]
    · by_cases hd : e.declared <;> by_cases hra : cfg2.runAsync = true <;>
        simp [hd, hra, finishing, updateFinishedEvent]

/-- C3 (witness): a concrete cache hit is returned re-stamped with ui 7
and the body never runs, while a non-cacheable invocation performs no
cache lookup. -/
theorem c3_cache_short_circuit_witness :
    run_sync cacheHitCfg true initTrace =
      (RunOutcome.returned { cachedResultExample with uiOwner := 7 },
       { flagWrites := [EventFlag.incomplete, EventFlag.running, EventFlag.complete]
         resultsMade := 0
         bodyRuns := 0
         cacheLookups := 1
         status := "unknown"
         errorInfo := [] })
    ∧ (run_sync crashCfg true initTrace).2.cacheLookups = 0 :=
  c3_cache_short_circuit cacheHitCfg crashCfg cachedResultExample
    (by decide) rfl (by decide) (Or.inl (by decide))

/-- C5: when the command body raises an exception in the declared
`RAISES` set, `_run_sync` sets the invocation's status to `'success'`,
completes the Event lifecycle, and re-raises the same exception to the
caller instead of converting it to an error result. -/
theorem c5_control_flow_reraise (cfg : RunConfig) (e : Exn)
    (hout : cfg.body.outcome = BodyOutcome.raises e)
    (hd : e.declared = true)
    (hmiss : cacheHit cfg true = none) :
    (run_sync cfg true initTrace).1 = RunOutcome.raised e
    ∧ (run_sync cfg true initTrace).2.status = "success"
    ∧ collapseRuns (run_sync cfg true initTrace).2.flagWrites =
        [EventFlag.incomplete, EventFlag.running, EventFlag.complete] := by
  unfold run_sync starting cacheHit initTrace
  unfold cacheHit at hmiss
  by_cases httl : (cfg.ttl > 0 && !cfg.httpDebug && true) = true <;>
    simp [httl] at hmiss ⊢ <;>
    simp [hmiss, hout, hd, collapseRuns, updateFinishedEvent]

/-- C5 (witness): a concrete declared control-flow exception is
re-raised with status success and a completed Event. -/
theorem c5_control_flow_reraise_witness :
    (run_sync redirectCfg true initTrace).1 =
      RunOutcome.raised { declared := true, eid := 3 }
    ∧ (run_sync redirectCfg true initTrace).2.status = "success"
    ∧ collapseRuns (run_sync redirectCfg true initTrace).2.flagWrites =
        [EventFlag.incomplete, EventFlag.running, EventFlag.complete] :=
  c5_control_flow_reraise redirectCfg { declared := true, eid := 3 }
    rfl rfl (by decide)

end Mailpile

namespace Mailpile

/-- C6: `GetCommand(token)` returns a command definition if and only if
exactly one registered command in `COMMANDS` matches the token among
its CLI shortcode, CLI shortname and API endpoint; with zero or several
matches it returns `None` rather than picking one arbitrarily. -/
theorem c6_get_command_unambiguous (name : String) (c : CommandDef) :
    (GetCommand name = some c ↔
      COMMANDS.filter (fun d => synopsisHas d name) = [c])
    ∧ ((COMMANDS.filter (fun d => synopsisHas d name)).length ≠ 1 →
        GetCommand name = none) := by
  unfold GetCommand
  constructor
  · constructor
    · intro h
      by_cases hl : (COMMANDS.filter (fun d => synopsisHas d name)).length = 1
      · rcases List.length_eq_one.mp hl with ⟨a, ha⟩
        simp only [hl, if_true, ha, List.head?] at h
        cases h
        exact ha
      · simp [hl] at h
    · intro h
      simp [h]
  · intro h
    simp [h]

/-- C6 (witness): `'help'` resolves uniquely to the `Help` definition,
and a token matching nothing resolves to `None`. -/
theorem c6_get_command_unambiguous_witness :
    GetCommand "help" = some Help ∧ GetCommand "nope" = none :=
  ⟨(c6_get_command_unambiguous "help" Help).1.mpr (by decide),
   (c6_get_command_unambiguous "nope" Help).2 (by decide)⟩

/-- C7: for a non-empty token, `Action` first resolves via `GetCommand`
and runs the matched command when one exists; only when `GetCommand`
finds nothing does it consider the tag fallback — rewriting the request
into a `search` invocation with query `in:<tag slug>`, and only when a
config is loaded and the token names a known tag; if both resolutions
fail it raises `UsageError('Unknown command: ...')`. -/
theorem c7_action_resolution_order (opt arg : String) (loaded : Bool)
    (getTag : String → Option String) (c : CommandDef) (slug : String)
    (hopt : opt ≠ "") :
    (GetCommand opt = some c →
      Action opt arg loaded getTag = ActionOutcome.ranCommand c)
    ∧ (GetCommand opt = none → loaded = true → getTag opt = some slug →
        Action opt arg loaded getTag =
          ActionOutcome.ranTagSearch
            ("in:" ++ slug ++ (if arg ≠ "" then " " else "") ++ arg))
    ∧ (GetCommand opt = none → (loaded = false ∨ getTag opt = none) →
        Action opt arg loaded getTag = ActionOutcome.unknownCommand opt) := by
  refine ⟨fun h => ?_, fun h hl ht => ?_, fun h hlt => ?_⟩
  · unfold Action
    simp [hopt, h]
  · unfold Action
    simp [hopt, h, hl, ht]
  · unfold Action
    rcases hlt with hl | ht
    · simp [hopt, h, hl]
    · cases loaded <;> simp [hopt, h, ht]

/-- C7 (witness): `'load'` runs the `Load` command; with no command
match, `'inbox'` falls back to the tag search `in:inbox`; and a token
matching neither raises Unknown command. -/
theorem c7_action_resolution_order_witness :
    Action "load" "" true (fun _ => none) = ActionOutcome.ranCommand Load
    ∧ Action "inbox" "" true
        (fun t => if t = "inbox" then some "inbox" else none) =
        ActionOutcome.ranTagSearch "in:inbox"
    ∧ Action "bogus" "" true (fun _ => none) =
        ActionOutcome.unknownCommand "bogus" :=
  ⟨(c7_action_resolution_order "load" "" true (fun _ => none) Load "x"
      (by decide)).1 (by decide),
   by
    have h := (c7_action_resolution_order "inbox" "" true
      (fun t => if t = "inbox" then some "inbox" else none) Load "inbox"
      (by decide)).2.1 (by decide) rfl (by decide)
    simpa using h,
   (c7_action_resolution_order "bogus" "" true (fun _ => none) Load "x"
      (by decide)).2.2 (by decide) (Or.inr rfl)⟩

end Mailpile

namespace Mailpile

/-- Unfolding `_sloppy_copy` on a suppressed field name: the value is
replaced by `'(SUPPRESSED)'` (whose `[:1024]` truncation is itself)
before the value is even inspected. -/
theorem sloppy_copy_pass {v : PyVal} {name : Option (List Char)}
    (hp : startsWithPass name = true) :
    sloppy_copy v name = PyVal.scalar true suppressedText := by
  rw [sloppy_copy.eq_def]
  simp [hp, copy_value]
  decide

/-- Unfolding `_sloppy_copy` on a scalar under a non-password name. -/
theorem sloppy_copy_scalar {name : Option (List Char)}
    (hp : startsWithPass name = false) (d : Bool) (s : List Char) :
    sloppy_copy (PyVal.scalar d s) name = copy_value d s := by
  rw [sloppy_copy.eq_def]
  simp [hp]

/-- Unfolding `_sloppy_copy` on a list under a non-password name. -/
theorem sloppy_copy_list {name : Option (List Char)}
    (hp : startsWithPass name = false) (items : List PyVal) :
    sloppy_copy (PyVal.list items) name =
      PyVal.list (items.attach.map (fun i => sloppy_copy i.1 name)) := by
  rw [sloppy_copy.eq_def]
  simp [hp]

/-- Unfolding `_sloppy_copy` on a dict under a non-password name: every
entry recurses with its own key as the field name. -/
theorem sloppy_copy_dict {name : Option (List Char)}
    (hp : startsWithPass name = false) (items : List (List Char × PyVal)) :
    sloppy_copy (PyVal.dict items) name =
      PyVal.dict (items.attach.map
        (fun kv => (kv.1.1, sloppy_copy kv.1.2 (some kv.1.1)))) := by
  rw [sloppy_copy.eq_def]
  simp [hp]

/-- Unfolding `leavesBounded` on a scalar: the 1024-character bound. -/
theorem leavesBounded_scalar (d : Bool) (s : List Char) :
    leavesBounded (PyVal.scalar d s) = decide (s.length ≤ 1024) := by
  rw [leavesBounded.eq_def]

/-- Unfolding `leavesBounded` on a list: it checks every item. -/
theorem leavesBounded_list_iff (items : List PyVal) :
    leavesBounded (PyVal.list items) = true ↔
      ∀ x ∈ items, leavesBounded x = true := by
  rw [leavesBounded.eq_def]
  simp

/-- Unfolding `leavesBounded` on a dict: it checks every entry's value. -/
theorem leavesBounded_dict_iff (items : List (List Char × PyVal)) :
    leavesBounded (PyVal.dict items) = true ↔
      ∀ kv ∈ items, leavesBounded kv.2 = true := by
  rw [leavesBounded.eq_def]
  simp

/-- Every scalar leaf of any `_sloppy_copy` output holds at most 1024
characters. -/
theorem sloppy_copy_bounded (data : PyVal) (name : Option (List Char)) :
    leavesBounded (sloppy_copy data name) = true := by
  induction data, name using sloppy_copy.induct with
  | case1 data name hp =>
      rw [sloppy_copy_pass hp, leavesBounded_scalar]
      decide
  | case2 name hp d s =>
      rw [sloppy_copy_scalar (Bool.not_eq_true _ ▸ hp) d s]
      rcases d with _ | _ <;>
        (simp [copy_value, leavesBounded_scalar, List.length_take]; try decide)
  | case3 name hp items ih =>
      rw [sloppy_copy_list (Bool.not_eq_true _ ▸ hp) items]
      rw [leavesBounded_list_iff]
      intro y hy
      rw [List.mem_map] at hy
      rcases hy with ⟨i, hi, rfl⟩
      exact ih i
  | case4 name hp items ih =>
      rw [sloppy_copy_dict (Bool.not_eq_true _ ▸ hp) items]
      rw [leavesBounded_dict_iff]
      intro kv hkv
      rw [List.mem_map] at hkv
      rcases hkv with ⟨p, hp2, rfl⟩
      exact ih p

/-- C9: in the data logged into an Event's private data, any argument
or data field whose name starts with `'pass'` is recorded as the
literal `'(SUPPRESSED)'` regardless of its value; every logged value is
truncated to at most 1024 characters (in particular everything
`_create_event` logs satisfies the bound); and an undecodable value is
recorded as `'(BINARY DATA)'`. -/
theorem c9_event_data_scrubbing :
    (∀ (v : PyVal) (nm : List Char), nm.take 4 = ['p', 'a', 's', 's'] →
        sloppy_copy v (some nm) = PyVal.scalar true suppressedText)
    ∧ (∀ (data : PyVal) (name : Option (List Char)),
        leavesBounded (sloppy_copy data name) = true)
    ∧ (∀ (s : List Char) (name : Option (List Char)),
        startsWithPass name = false →
        sloppy_copy (PyVal.scalar false s) name = PyVal.scalar true binaryText)
    ∧ (∀ (logArguments : Bool) (data : List (List Char × PyVal))
          (args : List PyVal),
        ∀ kv ∈ create_event_private_data logArguments data args,
          leavesBounded kv.2 = true)
    ∧ (∀ (items : List (List Char × PyVal)) (k : List Char) (v : PyVal)
          (name : Option (List Char)),
        startsWithPass name = false → k.take 4 = ['p', 'a', 's', 's'] →
        (k, v) ∈ items →
        (k, PyVal.scalar true suppressedText) ∈
          dictEntries (sloppy_copy (PyVal.dict items) name)) := by
  refine ⟨?_, sloppy_copy_bounded, ?_, ?_, ?_⟩
  · intro v nm h
    exact sloppy_copy_pass (by simp [startsWithPass, h])
  · intro s name hp
    rw [sloppy_copy_scalar hp]
    simp [copy_value]
  · intro logArguments data args kv hkv
    unfold create_event_private_data at hkv
    split at hkv
    · rcases List.mem_append.mp hkv with h | h
      · split at h
        · simp at h
        · obtain rfl := List.mem_singleton.mp h
          exact sloppy_copy_bounded _ _
      · split at h
        · simp at h
        · obtain rfl := List.mem_singleton.mp h
          exact sloppy_copy_bounded _ _
    · simp at hkv
  · intro items k v name hp hk hmem
    rw [sloppy_copy_dict hp, dictEntries]
    apply List.mem_map.mpr
    refine ⟨⟨(k, v), hmem⟩, List.mem_attach _ _, ?_⟩
    simp only
    rw [sloppy_copy_pass (by simp [startsWithPass, hk])]

/-- C9 (witness): a concrete `'password'` field is suppressed whatever
it held; a concrete copy is leaf-bounded; a concrete undecodable value
becomes `'(BINARY DATA)'`; `_create_event`'s logged data is bounded;
and a `'password'` entry inside a logged dict is suppressed. -/
theorem c9_event_data_scrubbing_witness :
    sloppy_copy (PyVal.scalar true "hunter2".toList) (some "password".toList) =
      PyVal.scalar true suppressedText
    ∧ leavesBounded
        (sloppy_copy (PyVal.list [PyVal.scalar false []]) none) = true
    ∧ sloppy_copy (PyVal.scalar false [':']) (some "subject".toList) =
        PyVal.scalar true binaryText
    ∧ leavesBounded
        (("args".toList,
          sloppy_copy (PyVal.list [PyVal.scalar true []]) none) :
            List Char × PyVal).2 = true
    ∧ ("password".toList, PyVal.scalar true suppressedText) ∈
        dictEntries (sloppy_copy
          (PyVal.dict [("password".toList, PyVal.scalar true "hunter2".toList)])
          none) :=
  ⟨c9_event_data_scrubbing.1 _ _ (by decide),
   c9_event_data_scrubbing.2.1 _ _,
   c9_event_data_scrubbing.2.2.1 _ _ (by decide),
   c9_event_data_scrubbing.2.2.2.1 true [] [PyVal.scalar true []] _
     (by simp [create_event_private_data]),
   c9_event_data_scrubbing.2.2.2.2 _ _ _ _ (by decide) (by decide)
     (List.mem_singleton.mpr rfl)⟩

/-- Sorting the query-argument pairs by key is a canonical form: two
pair lists that are equal as dicts (permutations with no duplicate
keys) sort to the same list. -/
theorem sortByKey_eq_of_perm (sqa1 sqa2 : List (List Char × PyVal))
    (hperm : sqa1.Perm sqa2) (hkeys : (sqa1.map Prod.fst).Nodup) :
    sortByKey sqa1 = sortByKey sqa2 := by
  have htrans : ∀ (a b c : List Char × PyVal),
      decide (a.1 ≤ b.1) = true → decide (b.1 ≤ c.1) = true →
      decide (a.1 ≤ c.1) = true := by
    intro a b c hab hbc
    simp only [decide_eq_true_eq] at hab hbc ⊢
    exact le_trans hab hbc
  have htotal : ∀ (a b : List Char × PyVal),
      (decide (a.1 ≤ b.1) || decide (b.1 ≤ a.1)) = true := by
    intro a b
    simp only [Bool.or_eq_true, decide_eq_true_eq]
    exact le_total a.1 b.1
  have hs1 := List.sorted_mergeSort htrans htotal sqa1
  have hs2 := List.sorted_mergeSort htrans htotal sqa2
  have hp1 := List.mergeSort_perm sqa1 (fun a b => decide (a.1 ≤ b.1))
  have hp2 := List.mergeSort_perm sqa2 (fun a b => decide (a.1 ≤ b.1))
  have hne : sqa1.Pairwise (fun a b => a.1 ≠ b.1) := by
    rw [List.Nodup, List.pairwise_map] at hkeys
    exact hkeys
  have hne1 : (sortByKey sqa1).Pairwise (fun a b => a.1 ≠ b.1) :=
    (hp1.pairwise_iff (fun h => Ne.symm h)).mpr hne
  have hne2 : (sortByKey sqa2).Pairwise (fun a b => a.1 ≠ b.1) :=
    (hp2.pairwise_iff (fun h => Ne.symm h)).mpr
      ((hperm.pairwise_iff (fun h => Ne.symm h)).mp hne)
  have hlt1 : (sortByKey sqa1).Pairwise (fun a b => a.1 < b.1) := by
    have := List.Pairwise.and hs1 hne1
    exact this.imp (fun h => lt_of_le_of_ne (by simpa using h.1) h.2)
  have hlt2 : (sortByKey sqa2).Pairwise (fun a b => a.1 < b.1) := by
    have := List.Pairwise.and hs2 hne2
    exact this.imp (fun h => lt_of_le_of_ne (by simpa using h.1) h.2)
  haveI : IsAntisymm (List Char × PyVal) (fun a b => a.1 < b.1) :=
    ⟨fun a b h1 h2 => absurd h2 (not_lt.mpr (le_of_lt h1))⟩
  exact List.eq_of_perm_of_sorted
    ((hp1.trans hperm).trans hp2.symm) hlt1 hlt2

/-- C4: `cache_id()` is a pure, deterministic function of the
invocation's own query arguments and endpoint identity: it is built
from the sorted key/value pairs of the query arguments plus the
resolved endpoint path, so two invocations of the same command class
whose query-argument dicts are equal (any permutation of the same
entries, keys being unique in a dict) get identical cache ids; and a
non-cacheable command (`COMMAND_CACHE_TTL < 1`) gets the empty
string. -/
theorem c4_cache_id_pure (ttl : Int) (uiUrl : List Char)
    (md5hex : List (List Char × PyVal) → List Char)
    (sqa1 sqa2 : List (List Char × PyVal))
    (hperm : sqa1.Perm sqa2) (hkeys : (sqa1.map Prod.fst).Nodup) :
    cache_id ttl uiUrl md5hex sqa1 = cache_id ttl uiUrl md5hex sqa2
    ∧ (ttl < 1 → cache_id ttl uiUrl md5hex sqa1 = []) := by
  constructor
  · unfold cache_id
    rw [sortByKey_eq_of_perm sqa1 sqa2 hperm hkeys]
  · intro h
    unfold cache_id
    simp [h]

/-- C4 (witness): two orderings of the same two-entry query dict give
the same cache id at TTL 60, and TTL 0 gives the empty string. -/
theorem c4_cache_id_pure_witness :
    cache_id 60 "api/search".toList (fun _ => ['h'])
      [(['b'], PyVal.scalar true []), (['a'], PyVal.scalar true [])] =
    cache_id 60 "api/search".toList (fun _ => ['h'])
      [(['a'], PyVal.scalar true []), (['b'], PyVal.scalar true [])]
    ∧ cache_id 0 "api/search".toList (fun _ => ['h'])
      [(['b'], PyVal.scalar true []), (['a'], PyVal.scalar true [])] = [] :=
  ⟨(c4_cache_id_pure 60 _ _ _ _
      (List.Perm.swap _ _ _) (by decide)).1,
   (c4_cache_id_pure 0 "api/search".toList (fun _ => ['h']) _
      [(['a'], PyVal.scalar true []), (['b'], PyVal.scalar true [])]
      (List.Perm.swap _ _ _) (by decide)).2 (by decide)⟩

/-- C8: `as_(format)` with no extra arguments memoizes per format — a
second call returns the value stored by the first without running any
renderer again (so the underlying renderer runs at most once per
format), rendering leaves the result payload `self.result` unchanged,
and a call with extra args or kwargs bypasses the memo entirely: it
leaves the state untouched and goes straight to the renderer. -/
theorem c8_render_memoization (renderers : String → Option String)
    (asText : String) (st : CRView) (what : String) :
    ((as_ renderers asText
        (as_ renderers asText st what false).2.1 what false).1 =
        (as_ renderers asText st what false).1
      ∧ (as_ renderers asText
          (as_ renderers asText st what false).2.1 what false).2.1 =
          (as_ renderers asText st what false).2.1
      ∧ (as_ renderers asText
          (as_ renderers asText st what false).2.1 what false).2.2 = 0
      ∧ (as_ renderers asText st what false).2.2 ≤ 1)
    ∧ ((as_ renderers asText st what false).2.1.result = st.result
      ∧ (as_ renderers asText st what true).2.1.result = st.result)
    ∧ (as_ renderers asText st what true).2.1 = st
    ∧ (as_ renderers asText st what true).1 =
        (match renderers what with
         | some out => AsOutcome.value out
         | none => AsOutcome.typeError) := by
  unfold as_
  have h2 : ∀ out' : String,
      lookupRendered ((what, out') :: st.rendered) what = some out' := by
    intro out'
    simp [lookupRendered, List.find?]
  rcases hl : lookupRendered st.rendered what with _ | v <;>
    rcases hr : renderers what with _ | out <;>
    simp [hl, hr, h2]

/-- C10: for `SearchResults` built from a results list of length `L`
with page size `num` and requested start `s`, the effective start is
clamped into `[0, L]`; the stats satisfy `total = L`,
`start = start + 1`, `count = len(results[start:start+num]) ≤ num`,
and `end = start + min(num, L - start) ≤ total`. -/
theorem c10_search_stats (results : List Nat) (start0 : Int)
    (endOpt : Option Int) (num : Nat) :
    (searchResultsStats results start0 endOpt num).2 ≤ results.length
    ∧ (searchResultsStats results start0 endOpt num).1.total = results.length
    ∧ (searchResultsStats results start0 endOpt num).1.start =
        (searchResultsStats results start0 endOpt num).2 + 1
    ∧ (searchResultsStats results start0 endOpt num).1.count =
        ((results.drop
            (searchResultsStats results start0 endOpt num).2).take num).length
    ∧ (searchResultsStats results start0 endOpt num).1.count ≤ num
    ∧ (searchResultsStats results start0 endOpt num).1.end_ =
        (searchResultsStats results start0 endOpt num).2 +
          min num (results.length -
            (searchResultsStats results start0 endOpt num).2)
    ∧ (searchResultsStats results start0 endOpt num).1.end_ ≤
        (searchResultsStats results start0 endOpt num).1.total := by
  unfold searchResultsStats
  set L := results.length with hL
  set s1 : Int :=
    (match endOpt with
     | some e => if e = 0 then start0 else e - num
     | none => start0) with hs1
  by_cases hgt : s1 > (L : Int)
  · simp only [hgt, if_true]
    simp [List.length_take, List.length_drop]
    try omega
  · simp only [hgt, if_false]
    by_cases hlt : s1 < 0
    · simp [hlt, List.length_take, List.length_drop]
      try omega
    · simp [hlt, List.length_take, List.length_drop]
      try omega

end Mailpile
